import Mathlib

/-!
Shallow embedding of the settlement engine of `EventManager.sol`
(the contract under `src/packages/hardhat/contracts/`).  Machine
integers (`uint256`, `uint64`, `uint32`, `uint16`) are modelled as `Nat`;
all arithmetic the contract performs stays far below `2^256` on the
inputs considered, and Solidity 0.8 checked subtraction agrees with `Nat`
truncated subtraction at every subtraction site reachable under the
guards modelled here.  Addresses are modelled as `Nat` (`0` playing
`address(0)`).  `block.timestamp` is an explicit `now` argument.  The
ERC20 collaborator is modelled by ghost counters: a successful
`transferFrom` into the contract adds to `totalDebited`, a `withdraw`
transfer out adds to `totalWithdrawn` (a failing transfer reverts the
whole call, i.e. the state is unchanged, so only successful transfers
are modelled).  `require(c, msg)` becomes `Except.error msg`.
-/

namespace EventManager

/-- `PolicyConfig` of EventManager.sol: global refund / forfeit policy. -/
structure PolicyConfig where
  fullRefundHours : Nat
  partialRefundHours : Nat
  partialRefundPercent : Nat
  attendeeSharePercent : Nat
deriving Repr, DecidableEq

/-- `EventStatus` of EventManager.sol. -/
inductive EventStatus where
  | Created
  | Published
  | Canceled
  | Completed
deriving Repr, DecidableEq

/-- `RegStatus` of EventManager.sol. -/
inductive RegStatus where
  | NoneR
  | Confirmed
  | CanceledByParticipant
  | Attended
deriving Repr, DecidableEq

/-- `Registration` of EventManager.sol (`exists` is a Lean keyword,
hence the field is called `present`). -/
structure Registration where
  status : RegStatus
  present : Bool
deriving Repr, DecidableEq

/-- The zero value of a `Registration` storage slot. -/
def Registration.zero : Registration := ⟨RegStatus.NoneR, false⟩

/-- The `Event` struct of EventManager.sol.  The two per-participant
mappings are total functions (Solidity mappings are total with zero
default). -/
structure Event where
  organizer : Nat
  description : String
  startTime : Nat
  endTime : Nat
  minAttendanceBps : Nat
  capacity : Nat
  status : EventStatus
  published : Bool
  bondReleased : Bool
  checkInClosed : Bool
  confirmedCount : Nat
  attendedCount : Nat
  forfeitPool : Nat
  rewardPerAttendee : Nat
  registrations : Nat → Registration
  rewardsClaimed : Nat → Bool

/-- The zero value of an `Event` storage slot (what `events[id]` holds
before `createEvent` writes to it). -/
def Event.zero : Event where
  organizer := 0
  description := ""
  startTime := 0
  endTime := 0
  minAttendanceBps := 0
  capacity := 0
  status := EventStatus.Created
  published := false
  bondReleased := false
  checkInClosed := false
  confirmedCount := 0
  attendedCount := 0
  forfeitPool := 0
  rewardPerAttendee := 0
  registrations := fun _ => Registration.zero
  rewardsClaimed := fun _ => false

/-- Contract storage: the fields of `EventManager` plus the two ghost
transfer counters. -/
structure EMState where
  owner : Nat
  attendeeDepositAmount : Nat
  organizerBondAmount : Nat
  policy : PolicyConfig
  isRegisteredUser : Nat → Bool
  balances : Nat → Nat
  events : Nat → Event
  nextEventId : Nat
  totalDebited : Nat
  totalWithdrawn : Nat

/-- Pointwise map update (Solidity `m[k] = v`). -/
def upd {α : Type} (f : Nat → α) (k : Nat) (v : α) : Nat → α :=
  fun k' => if k' = k then v else f k'

/-- `1 hours` in seconds. -/
def hourSeconds : Nat := 3600

/-- `COMPLETION_DEADLINE = 24 hours`. -/
def COMPLETION_DEADLINE : Nat := 24 * hourSeconds

/-- The deployed state (constructor of EventManager.sol): default
deposit `1e18`, bond `10e18`, policy `(24, 2, 50, 50)`, `nextEventId = 1`,
all mappings zero. -/
def initState (owner : Nat) : EMState where
  owner := owner
  attendeeDepositAmount := 10 ^ 18
  organizerBondAmount := 10 * 10 ^ 18
  policy := ⟨24, 2, 50, 50⟩
  isRegisteredUser := fun _ => false
  balances := fun _ => 0
  events := fun _ => Event.zero
  nextEventId := 1
  totalDebited := 0
  totalWithdrawn := 0

/-- `timeUntilStart = evt.startTime > block.timestamp ? evt.startTime -
block.timestamp : 0` of `_calculateRefund`. -/
def timeUntilStart (startTime now : Nat) : Nat :=
  if startTime > now then startTime - now else 0

/-- `_calculateRefund(evt, depositAmount)`: the event's `startTime` and
`block.timestamp` are passed explicitly, the policy is read from
storage by the caller. -/
def calculateRefund (startTime now : Nat) (policy : PolicyConfig)
    (depositAmount : Nat) : Nat :=
  if timeUntilStart startTime now ≥ policy.fullRefundHours * hourSeconds then
    depositAmount
  else if timeUntilStart startTime now ≥
      policy.partialRefundHours * hourSeconds then
    depositAmount * policy.partialRefundPercent / 100
  else
    0

/-- `_processNoShowForfeits(evt)`: deposits of confirmed-but-not-attended
registrants join the forfeit pool. -/
def processNoShowForfeits (deposit : Nat) (evt : Event) : Event :=
  let noShows := evt.confirmedCount - evt.attendedCount
  if noShows > 0 then
    { evt with forfeitPool := evt.forfeitPool + noShows * deposit }
  else
    evt

/-- The `if (!evt.checkInClosed) { evt.checkInClosed = true;
_processNoShowForfeits(evt); }` prelude of `completeEvent`. -/
def sweepNoShows (deposit : Nat) (evt : Event) : Event :=
  if evt.checkInClosed then evt
  else processNoShowForfeits deposit { evt with checkInClosed := true }

/-- `attendanceRate = confirmedCount > 0 ? attendedCount * 10000 /
confirmedCount : 0` of `completeEvent`. -/
def attendanceRate (evt : Event) : Nat :=
  if evt.confirmedCount > 0 then evt.attendedCount * 10000 / evt.confirmedCount
  else 0

/-- The bond penalty levied by `completeEvent`: `0` when the attendance
rate meets `minAttendanceBps`, otherwise
`bond * (minAttendanceBps - attendanceRate) / 10000`. -/
def bondPenalty (bond : Nat) (evt : Event) : Nat :=
  if attendanceRate evt ≥ evt.minAttendanceBps then 0
  else bond * (evt.minAttendanceBps - attendanceRate evt) / 10000

/-- `_distributeForfeitsByPolicy(evt)`: returns the updated event and the
amount credited to the organizer's balance by the caller.  The stored
`forfeitPool` is not modified; only `rewardPerAttendee` is written (and
only when the pool is non-zero). -/
def distributeForfeitsByPolicy (policy : PolicyConfig) (evt : Event) :
    Event × Nat :=
  if evt.forfeitPool = 0 then (evt, 0)
  else
    let originalForfeitPool := evt.forfeitPool
    let organizerShare :=
      originalForfeitPool * (100 - policy.attendeeSharePercent) / 100
    let attendeeShare := originalForfeitPool - organizerShare
    let reward :=
      if evt.attendedCount > 0 ∧ attendeeShare > 0 then
        attendeeShare / evt.attendedCount
      else 0
    ({ evt with rewardPerAttendee := reward }, organizerShare)

/-- `createAccount()`. -/
def createAccount (s : EMState) (caller : Nat) : Except String EMState :=
  if s.isRegisteredUser caller then .error "Account already exists"
  else .ok { s with isRegisteredUser := upd s.isRegisteredUser caller true }

/-- `updatePolicy(...)` (`onlyOwner`). -/
def updatePolicy (s : EMState) (caller fullH partialH partialPct sharePct : Nat) :
    Except String EMState :=
  if caller ≠ s.owner then .error "OwnableUnauthorizedAccount"
  else if ¬ partialPct ≤ 100 then .error "Invalid partial refund percent"
  else if ¬ sharePct ≤ 100 then .error "Invalid attendee share percent"
  else if ¬ fullH ≥ partialH then .error "Full refund hours must be >= partial"
  else .ok { s with policy := ⟨fullH, partialH, partialPct, sharePct⟩ }

/-- `setAttendeeDepositAmount(_deposit)` (`onlyOwner`). -/
def setAttendeeDepositAmount (s : EMState) (caller amount : Nat) :
    Except String EMState :=
  if caller ≠ s.owner then .error "OwnableUnauthorizedAccount"
  else .ok { s with attendeeDepositAmount := amount }

/-- `setOrganizerBondAmount(_bond)` (`onlyOwner`). -/
def setOrganizerBondAmount (s : EMState) (caller amount : Nat) :
    Except String EMState :=
  if caller ≠ s.owner then .error "OwnableUnauthorizedAccount"
  else .ok { s with organizerBondAmount := amount }

/-- `withdraw()`: drains the caller's whole balance to the external
token ledger. -/
def withdraw (s : EMState) (caller : Nat) : Except String EMState :=
  let amount := s.balances caller
  if ¬ amount > 0 then .error "No balance to withdraw"
  else .ok { s with
    balances := upd s.balances caller 0
    totalWithdrawn := s.totalWithdrawn + amount }

/-- `createEvent(...)`: takes the organizer bond, records the event in
status `Created`, unpublished, at id `nextEventId` (then increments it).
Field assignments on the fresh storage slot leave every unassigned field
(counts, flags, pool, reward, the two mappings) at its prior value, as in
Solidity. -/
def createEvent (s : EMState) (caller : Nat) (description : String)
    (startTime endTime minAttendanceBps capacity now : Nat) :
    Except String EMState :=
  if ¬ s.isRegisteredUser caller then .error "Must create account first"
  else if ¬ startTime > now then .error "Start time must be in future"
  else if ¬ endTime > startTime then .error "End time must be after start time"
  else if ¬ minAttendanceBps ≤ 10000 then .error "Invalid attendance BPS"
  else if ¬ capacity > 0 then .error "Capacity must be positive"
  else
    let eventId := s.nextEventId
    let newEvent := { s.events eventId with
      organizer := caller
      description := description
      startTime := startTime
      endTime := endTime
      minAttendanceBps := minAttendanceBps
      capacity := capacity
      status := EventStatus.Created
      published := false }
    .ok { s with
      totalDebited := s.totalDebited + s.organizerBondAmount
      nextEventId := s.nextEventId + 1
      events := upd s.events eventId newEvent }

/-- `publishEvent(_eventId)`. -/
def publishEvent (s : EMState) (eventId caller : Nat) : Except String EMState :=
  let evt := s.events eventId
  if ¬ evt.organizer = caller then .error "Only organizer can publish"
  else if ¬ evt.status = EventStatus.Created then
    .error "Event already published or finalized"
  else .ok { s with
    events := upd s.events eventId
      { evt with published := true, status := EventStatus.Published } }

/-- `cancelEvent(_eventId)`: organizer or contract owner; only the
status field is written. -/
def cancelEvent (s : EMState) (eventId caller : Nat) : Except String EMState :=
  let evt := s.events eventId
  if ¬ (evt.organizer = caller ∨ caller = s.owner) then
    .error "Only organizer or admin"
  else if ¬ evt.status = EventStatus.Published then .error "Event not active"
  else .ok { s with
    events := upd s.events eventId { evt with status := EventStatus.Canceled } }

/-- `closeCheckIn(_eventId)`. -/
def closeCheckIn (s : EMState) (eventId caller now : Nat) :
    Except String EMState :=
  let evt := s.events eventId
  if ¬ evt.organizer = caller then .error "Only organizer can close check-in"
  else if ¬ evt.status = EventStatus.Published then .error "Event not active"
  else if ¬ now ≥ evt.endTime then .error "Event not ended yet"
  else if evt.checkInClosed then .error "Check-in already closed"
  else .ok { s with
    events := upd s.events eventId
      (processNoShowForfeits s.attendeeDepositAmount
        { evt with checkInClosed := true }) }

/-- `checkIn(_eventId, _participant)`. -/
def checkIn (s : EMState) (eventId caller participant now : Nat) :
    Except String EMState :=
  let evt := s.events eventId
  if ¬ evt.organizer = caller then .error "Only organizer can check-in"
  else if ¬ evt.status = EventStatus.Published then .error "Event not active"
  else if ¬ now ≥ evt.startTime then .error "Event not started"
  else if evt.checkInClosed then .error "Check-in period closed"
  else
    let reg := evt.registrations participant
    if ¬ reg.present then .error "Participant not registered"
    else if ¬ reg.status = RegStatus.Confirmed then
      .error "Registration not confirmed"
    else .ok { s with
      events := upd s.events eventId
        { evt with
          registrations :=
            upd evt.registrations participant ⟨RegStatus.Attended, true⟩
          attendedCount := evt.attendedCount + 1 } }

/-- The event record built by a successful `completeEvent` just before
`_distributeForfeitsByPolicy` runs: check-in sweep, terminal status,
bond released, bond penalty added to the pool. -/
def completedEventPreDistribution (s : EMState) (eventId : Nat) : Event :=
  let evt1 := sweepNoShows s.attendeeDepositAmount (s.events eventId)
  let evt2 := { evt1 with
    status := EventStatus.Completed, bondReleased := true }
  { evt2 with
    forfeitPool := evt2.forfeitPool + bondPenalty s.organizerBondAmount evt2 }

/-- The bond penalty a successful `completeEvent` levies on the event's
organizer. -/
def completePenalty (s : EMState) (eventId : Nat) : Nat :=
  bondPenalty s.organizerBondAmount
    { sweepNoShows s.attendeeDepositAmount (s.events eventId) with
      status := EventStatus.Completed, bondReleased := true }

/-- `completeEvent(_eventId)`: sweep of not-yet-closed check-in, bond
payout minus `bondPenalty`, penalty into the pool, then
`_distributeForfeitsByPolicy`.  (The source's `if/else` on
`attendanceRate >= minAttendanceBps` is written here through
`bondPenalty`, which is `0` in the first branch: the two credits to the
organizer's balance are combined into one update.) -/
def completeEvent (s : EMState) (eventId caller now : Nat) :
    Except String EMState :=
  let evt := s.events eventId
  if ¬ (evt.organizer = caller ∨ now ≥ evt.endTime + COMPLETION_DEADLINE) then
    .error "Only organizer or after deadline"
  else if ¬ evt.status = EventStatus.Published then .error "Event not active"
  else if evt.bondReleased then .error "Bond already released"
  else
    let evt3 := completedEventPreDistribution s eventId
    let d := distributeForfeitsByPolicy s.policy evt3
    .ok { s with
      events := upd s.events eventId d.1
      balances := upd s.balances evt.organizer
        (s.balances evt.organizer +
          (s.organizerBondAmount - completePenalty s eventId) + d.2) }

/-- `registerForEvent(_eventId)`: takes the deposit, records a
`Confirmed` registration. -/
def registerForEvent (s : EMState) (eventId caller now : Nat) :
    Except String EMState :=
  if ¬ s.isRegisteredUser caller then .error "Must create account first"
  else
    let evt := s.events eventId
    if ¬ evt.published then .error "Event not published"
    else if ¬ evt.status = EventStatus.Published then
      .error "Registration not open"
    else if ¬ evt.confirmedCount < evt.capacity then .error "Event at capacity"
    else if (evt.registrations caller).present then .error "Already registered"
    else if ¬ now ≤ evt.startTime then .error "Registration closed"
    else .ok { s with
      totalDebited := s.totalDebited + s.attendeeDepositAmount
      events := upd s.events eventId
        { evt with
          registrations :=
            upd evt.registrations caller ⟨RegStatus.Confirmed, true⟩
          confirmedCount := evt.confirmedCount + 1 } }

/-- `cancelRegistration(_eventId)`: refund by `_calculateRefund`, the
shortfall joins the forfeit pool.  (The source guards the two `+=`
with `> 0`; adding `0` is the same.) -/
def cancelRegistration (s : EMState) (eventId caller now : Nat) :
    Except String EMState :=
  let evt := s.events eventId
  let reg := evt.registrations caller
  if ¬ reg.present then .error "Not registered"
  else if ¬ reg.status = RegStatus.Confirmed then
    .error "Registration not active"
  else
    let refundAmount :=
      calculateRefund evt.startTime now s.policy s.attendeeDepositAmount
    let forfeitAmount := s.attendeeDepositAmount - refundAmount
    .ok { s with
      events := upd s.events eventId
        { evt with
          registrations :=
            upd evt.registrations caller ⟨RegStatus.CanceledByParticipant, true⟩
          confirmedCount := evt.confirmedCount - 1
          forfeitPool := evt.forfeitPool + forfeitAmount }
      balances := upd s.balances caller (s.balances caller + refundAmount) }

/-- `claimPayout(_eventId)`: marks the caller claimed, then credits
`attendeeDepositAmount + rewardPerAttendee` to an `Attended`
registrant, `attendeeDepositAmount` to any other registrant of a
`Canceled` event, `0` otherwise. -/
def claimPayout (s : EMState) (eventId caller : Nat) : Except String EMState :=
  let evt := s.events eventId
  let reg := evt.registrations caller
  if ¬ (evt.status = EventStatus.Completed ∨ evt.status = EventStatus.Canceled)
  then .error "Event not finalized"
  else if ¬ reg.present then .error "Not registered for event"
  else if evt.rewardsClaimed caller then .error "Payout already claimed"
  else
    let totalPayout :=
      if reg.status = RegStatus.Attended then
        s.attendeeDepositAmount + evt.rewardPerAttendee
      else if evt.status = EventStatus.Canceled then
        s.attendeeDepositAmount
      else 0
    .ok { s with
      events := upd s.events eventId
        { evt with rewardsClaimed := upd evt.rewardsClaimed caller true }
      balances := upd s.balances caller (s.balances caller + totalPayout) }

/-- `getClaimablePayout(_eventId, _participant)` (view). -/
def getClaimablePayout (s : EMState) (eventId participant : Nat) : Nat :=
  let evt := s.events eventId
  let reg := evt.registrations participant
  if (¬ evt.status = EventStatus.Completed ∧
        ¬ evt.status = EventStatus.Canceled) ∨
      ¬ reg.present ∨ evt.rewardsClaimed participant then 0
  else if reg.status = RegStatus.Attended then
    s.attendeeDepositAmount + evt.rewardPerAttendee
  else if evt.status = EventStatus.Canceled then
    s.attendeeDepositAmount
  else 0

/-- `getEventForfeitPool(_eventId)` (view). -/
def getEventForfeitPool (s : EMState) (eventId : Nat) : Nat :=
  (s.events eventId).forfeitPool

/-- One external call to the contract, with its `msg.sender` and, where
the body reads `block.timestamp`, the clock value. -/
inductive Op where
  | createAccount (caller : Nat)
  | updatePolicy (caller fullH partialH partialPct sharePct : Nat)
  | setAttendeeDepositAmount (caller amount : Nat)
  | setOrganizerBondAmount (caller amount : Nat)
  | withdraw (caller : Nat)
  | createEvent (caller : Nat) (description : String)
      (startTime endTime minAttendanceBps capacity now : Nat)
  | publishEvent (eventId caller : Nat)
  | cancelEvent (eventId caller : Nat)
  | closeCheckIn (eventId caller now : Nat)
  | checkIn (eventId caller participant now : Nat)
  | completeEvent (eventId caller now : Nat)
  | registerForEvent (eventId caller now : Nat)
  | cancelRegistration (eventId caller now : Nat)
  | claimPayout (eventId caller : Nat)
deriving Repr, DecidableEq

/-- The `msg.sender` of an operation. -/
def Op.sender : Op → Nat
  | .createAccount c => c
  | .updatePolicy c _ _ _ _ => c
  | .setAttendeeDepositAmount c _ => c
  | .setOrganizerBondAmount c _ => c
  | .withdraw c => c
  | .createEvent c _ _ _ _ _ _ => c
  | .publishEvent _ c => c
  | .cancelEvent _ c => c
  | .closeCheckIn _ c _ => c
  | .checkIn _ c _ _ => c
  | .completeEvent _ c _ => c
  | .registerForEvent _ c _ => c
  | .cancelRegistration _ c _ => c
  | .claimPayout _ c => c

/-- Dispatch one call. -/
def apply (s : EMState) : Op → Except String EMState
  | .createAccount c => createAccount s c
  | .updatePolicy c a b p q => updatePolicy s c a b p q
  | .setAttendeeDepositAmount c a => setAttendeeDepositAmount s c a
  | .setOrganizerBondAmount c a => setOrganizerBondAmount s c a
  | .withdraw c => withdraw s c
  | .createEvent c d st en m cap now => createEvent s c d st en m cap now
  | .publishEvent e c => publishEvent s e c
  | .cancelEvent e c => cancelEvent s e c
  | .closeCheckIn e c now => closeCheckIn s e c now
  | .checkIn e c p now => checkIn s e c p now
  | .completeEvent e c now => completeEvent s e c now
  | .registerForEvent e c now => registerForEvent s e c now
  | .cancelRegistration e c now => cancelRegistration s e c now
  | .claimPayout e c => claimPayout s e c

/-- A reverted call leaves the storage unchanged. -/
def step (s : EMState) (op : Op) : EMState :=
  match apply s op with
  | .ok s' => s'
  | .error _ => s

/-- Run a sequence of external calls. -/
def run (s : EMState) (ops : List Op) : EMState :=
  ops.foldl step s

/-- `address(0)` never originates a call (it has no key to sign with). -/
def ValidSenders (ops : List Op) : Prop :=
  ∀ op ∈ ops, op.sender ≠ 0

instance : DecidablePred ValidSenders := fun ops =>
  List.decidableBAll (fun op => Op.sender op ≠ 0) ops

/-! ### Basic lemmas about the storage primitives -/

@[simp] theorem upd_same {α : Type} (f : Nat → α) (k : Nat) (v : α) :
    upd f k v k = v := by
  simp [upd]

theorem upd_other {α : Type} (f : Nat → α) (k : Nat) (v : α) {k' : Nat}
    (h : k' ≠ k) : upd f k v k' = f k' := by
  simp [upd, h]

theorem upd_apply {α : Type} (f : Nat → α) (k : Nat) (v : α) (k' : Nat) :
    upd f k v k' = if k' = k then v else f k' := rfl

@[simp] theorem processNoShowForfeits_organizer (d : Nat) (evt : Event) :
    (processNoShowForfeits d evt).organizer = evt.organizer := by
  simp only [processNoShowForfeits]; split <;> rfl

@[simp] theorem processNoShowForfeits_status (d : Nat) (evt : Event) :
    (processNoShowForfeits d evt).status = evt.status := by
  simp only [processNoShowForfeits]; split <;> rfl

@[simp] theorem processNoShowForfeits_published (d : Nat) (evt : Event) :
    (processNoShowForfeits d evt).published = evt.published := by
  simp only [processNoShowForfeits]; split <;> rfl

@[simp] theorem processNoShowForfeits_rewardPerAttendee (d : Nat) (evt : Event) :
    (processNoShowForfeits d evt).rewardPerAttendee = evt.rewardPerAttendee := by
  simp only [processNoShowForfeits]; split <;> rfl

@[simp] theorem processNoShowForfeits_rewardsClaimed (d : Nat) (evt : Event) :
    (processNoShowForfeits d evt).rewardsClaimed = evt.rewardsClaimed := by
  simp only [processNoShowForfeits]; split <;> rfl

@[simp] theorem processNoShowForfeits_registrations (d : Nat) (evt : Event) :
    (processNoShowForfeits d evt).registrations = evt.registrations := by
  simp only [processNoShowForfeits]; split <;> rfl

theorem processNoShowForfeits_forfeitPool (d : Nat) (evt : Event) :
    (processNoShowForfeits d evt).forfeitPool =
      evt.forfeitPool + (evt.confirmedCount - evt.attendedCount) * d := by
  simp only [processNoShowForfeits]
  split
  · rfl
  · next h =>
    have h0 : evt.confirmedCount - evt.attendedCount = 0 := by omega
    simp [h0]

@[simp] theorem sweepNoShows_organizer (d : Nat) (evt : Event) :
    (sweepNoShows d evt).organizer = evt.organizer := by
  simp only [sweepNoShows]; split <;> simp

@[simp] theorem sweepNoShows_status (d : Nat) (evt : Event) :
    (sweepNoShows d evt).status = evt.status := by
  simp only [sweepNoShows]; split <;> simp

@[simp] theorem sweepNoShows_rewardPerAttendee (d : Nat) (evt : Event) :
    (sweepNoShows d evt).rewardPerAttendee = evt.rewardPerAttendee := by
  simp only [sweepNoShows]; split <;> simp

@[simp] theorem sweepNoShows_rewardsClaimed (d : Nat) (evt : Event) :
    (sweepNoShows d evt).rewardsClaimed = evt.rewardsClaimed := by
  simp only [sweepNoShows]; split <;> simp

@[simp] theorem sweepNoShows_registrations (d : Nat) (evt : Event) :
    (sweepNoShows d evt).registrations = evt.registrations := by
  simp only [sweepNoShows]; split <;> simp

@[simp] theorem processNoShowForfeits_minAttendanceBps (d : Nat) (evt : Event) :
    (processNoShowForfeits d evt).minAttendanceBps = evt.minAttendanceBps := by
  simp only [processNoShowForfeits]; split <;> rfl

@[simp] theorem processNoShowForfeits_confirmedCount (d : Nat) (evt : Event) :
    (processNoShowForfeits d evt).confirmedCount = evt.confirmedCount := by
  simp only [processNoShowForfeits]; split <;> rfl

@[simp] theorem processNoShowForfeits_attendedCount (d : Nat) (evt : Event) :
    (processNoShowForfeits d evt).attendedCount = evt.attendedCount := by
  simp only [processNoShowForfeits]; split <;> rfl

@[simp] theorem sweepNoShows_published (d : Nat) (evt : Event) :
    (sweepNoShows d evt).published = evt.published := by
  simp only [sweepNoShows]; split <;> simp

@[simp] theorem sweepNoShows_minAttendanceBps (d : Nat) (evt : Event) :
    (sweepNoShows d evt).minAttendanceBps = evt.minAttendanceBps := by
  simp only [sweepNoShows]; split <;> simp

@[simp] theorem sweepNoShows_confirmedCount (d : Nat) (evt : Event) :
    (sweepNoShows d evt).confirmedCount = evt.confirmedCount := by
  simp only [sweepNoShows]; split <;> simp

@[simp] theorem sweepNoShows_attendedCount (d : Nat) (evt : Event) :
    (sweepNoShows d evt).attendedCount = evt.attendedCount := by
  simp only [sweepNoShows]; split <;> simp

@[simp] theorem distributeForfeitsByPolicy_confirmedCount
    (policy : PolicyConfig) (evt : Event) :
    ((distributeForfeitsByPolicy policy evt).1).confirmedCount =
      evt.confirmedCount := by
  simp only [distributeForfeitsByPolicy]; split <;> rfl

@[simp] theorem distributeForfeitsByPolicy_attendedCount
    (policy : PolicyConfig) (evt : Event) :
    ((distributeForfeitsByPolicy policy evt).1).attendedCount =
      evt.attendedCount := by
  simp only [distributeForfeitsByPolicy]; split <;> rfl

@[simp] theorem distributeForfeitsByPolicy_forfeitPool (policy : PolicyConfig)
    (evt : Event) :
    ((distributeForfeitsByPolicy policy evt).1).forfeitPool = evt.forfeitPool := by
  simp only [distributeForfeitsByPolicy]; split <;> rfl

@[simp] theorem distributeForfeitsByPolicy_organizer (policy : PolicyConfig)
    (evt : Event) :
    ((distributeForfeitsByPolicy policy evt).1).organizer = evt.organizer := by
  simp only [distributeForfeitsByPolicy]; split <;> rfl

@[simp] theorem distributeForfeitsByPolicy_status (policy : PolicyConfig)
    (evt : Event) :
    ((distributeForfeitsByPolicy policy evt).1).status = evt.status := by
  simp only [distributeForfeitsByPolicy]; split <;> rfl

@[simp] theorem distributeForfeitsByPolicy_published (policy : PolicyConfig)
    (evt : Event) :
    ((distributeForfeitsByPolicy policy evt).1).published = evt.published := by
  simp only [distributeForfeitsByPolicy]; split <;> rfl

@[simp] theorem distributeForfeitsByPolicy_rewardsClaimed (policy : PolicyConfig)
    (evt : Event) :
    ((distributeForfeitsByPolicy policy evt).1).rewardsClaimed =
      evt.rewardsClaimed := by
  simp only [distributeForfeitsByPolicy]; split <;> rfl

@[simp] theorem distributeForfeitsByPolicy_registrations (policy : PolicyConfig)
    (evt : Event) :
    ((distributeForfeitsByPolicy policy evt).1).registrations =
      evt.registrations := by
  simp only [distributeForfeitsByPolicy]; split <;> rfl

theorem distributeForfeitsByPolicy_share (policy : PolicyConfig) (evt : Event)
    (hpool : 0 < evt.forfeitPool) :
    (distributeForfeitsByPolicy policy evt).2 =
      evt.forfeitPool * (100 - policy.attendeeSharePercent) / 100 := by
  simp only [distributeForfeitsByPolicy]
  split
  · next h0 => exact absurd h0 (by omega)
  · rfl

theorem distributeForfeitsByPolicy_reward (policy : PolicyConfig) (evt : Event)
    (hpool : 0 < evt.forfeitPool) :
    ((distributeForfeitsByPolicy policy evt).1).rewardPerAttendee =
      if 0 < evt.attendedCount then
        (evt.forfeitPool -
            evt.forfeitPool * (100 - policy.attendeeSharePercent) / 100) /
          evt.attendedCount
      else 0 := by
  simp only [distributeForfeitsByPolicy]
  split
  · next h0 => exact absurd h0 (by omega)
  · simp only
    split
    · next hcond =>
      rw [if_pos hcond.1]
    · next hcond =>
      rw [not_and_or] at hcond
      rcases hcond with h | h
      · rw [if_neg (by omega)]
      · have hz : evt.forfeitPool -
            evt.forfeitPool * (100 - policy.attendeeSharePercent) / 100 = 0 := by
          omega
        rw [hz]
        simp

/-! ### C4: refund tiering -/

/-- C4 counterexample.  The policy `⟨fullRefundHours := 1,
partialRefundHours := 0, partialRefundPercent := 50, ...⟩` satisfies the
claim's hypotheses (`partialRefundPercent ≤ 100`,
`fullRefundWindow ≥ partialRefundWindow`), yet at `now = startTime` the
code refunds `50` out of `100` (with `partialRefundHours = 0` the
partial branch `timeUntilStart ≥ 0` still fires), while the claim
requires the refund to be `0` for every `now ≥ startTime`. -/
theorem refund_tiering_cex :
    (50 : Nat) ≤ 100 ∧ (0 : Nat) ≤ 1 ∧
    calculateRefund 100 100 ⟨1, 0, 50, 50⟩ 100 = 50 ∧
    calculateRefund 100 100 ⟨1, 0, 50, 50⟩ 100 ≠ 0 := by decide

/-- C4 (amended).  For a policy with `partialRefundPercent ≤ 100` and
`fullRefundWindow ≥ partialRefundWindow` (windows are
`* 1 hours` of the policy's hour fields), `_calculateRefund` is
monotonically non-increasing as `now` approaches `startTime`; it returns
exactly `amount` when `timeUntilStart` equals the full-refund window;
exactly `amount * partialRefundPercent / 100` when `timeUntilStart`
equals the partial-refund window, provided the partial window is
strictly below the full one; and `0` for every `now ≥ startTime`,
provided the partial window is positive. -/
theorem refund_tiering (policy : PolicyConfig) (startTime amount : Nat)
    (hpct : policy.partialRefundPercent ≤ 100)
    (hwin : policy.partialRefundHours ≤ policy.fullRefundHours) :
    (∀ now now', now ≤ now' →
      calculateRefund startTime now' policy amount ≤
        calculateRefund startTime now policy amount) ∧
    (∀ now,
      timeUntilStart startTime now = policy.fullRefundHours * hourSeconds →
      calculateRefund startTime now policy amount = amount) ∧
    (∀ now, policy.partialRefundHours < policy.fullRefundHours →
      timeUntilStart startTime now = policy.partialRefundHours * hourSeconds →
      calculateRefund startTime now policy amount =
        amount * policy.partialRefundPercent / 100) ∧
    (∀ now, 0 < policy.partialRefundHours → startTime ≤ now →
      calculateRefund startTime now policy amount = 0) := by
  have hdiv : amount * policy.partialRefundPercent / 100 ≤ amount := by
    have h1 : amount * policy.partialRefundPercent ≤ amount * 100 :=
      Nat.mul_le_mul_left amount hpct
    have h2 : amount * policy.partialRefundPercent / 100 ≤ amount * 100 / 100 :=
      Nat.div_le_div_right h1
    omega
  refine ⟨?_, ?_, ?_, ?_⟩
  · intro now now' hle
    have ht : timeUntilStart startTime now' ≤ timeUntilStart startTime now := by
      unfold timeUntilStart
      split <;> split <;> omega
    unfold calculateRefund
    by_cases h1 : timeUntilStart startTime now' ≥
        policy.fullRefundHours * hourSeconds
    · rw [if_pos h1, if_pos (le_trans h1 ht)]
    · rw [if_neg h1]
      by_cases h3 : timeUntilStart startTime now' ≥
          policy.partialRefundHours * hourSeconds
      · rw [if_pos h3]
        by_cases h4 : timeUntilStart startTime now ≥
            policy.fullRefundHours * hourSeconds
        · rw [if_pos h4]; exact hdiv
        · rw [if_neg h4, if_pos (le_trans h3 ht)]
      · rw [if_neg h3]
        exact Nat.zero_le _
  · intro now h
    unfold calculateRefund
    rw [h, if_pos (le_refl _)]
  · intro now hlt h
    unfold calculateRefund
    have hs : (0 : Nat) < hourSeconds := by unfold hourSeconds; omega
    rw [h, if_neg (by exact not_le.mpr ((Nat.mul_lt_mul_right hs).mpr hlt)),
      if_pos (le_refl _)]
  · intro now hp hle
    have ht0 : timeUntilStart startTime now = 0 := by
      unfold timeUntilStart
      split <;> omega
    unfold calculateRefund
    have hs : (0 : Nat) < hourSeconds := by unfold hourSeconds; omega
    have h1 : ¬ (0 ≥ policy.fullRefundHours * hourSeconds) := by
      have := Nat.mul_pos (show 0 < policy.fullRefundHours by omega) hs
      omega
    have h2 : ¬ (0 ≥ policy.partialRefundHours * hourSeconds) := by
      have := Nat.mul_pos hp hs
      omega
    rw [ht0, if_neg h1, if_neg h2]

/-- C4 witness: the amended tiering theorem applied to the deployed
default policy `⟨24, 2, 50, 50⟩` at `now = startTime`. -/
theorem refund_tiering_witness :
    ((50 : Nat) ≤ 100 ∧ (2 : Nat) ≤ 24 ∧ (0 : Nat) < 2 ∧
      (100000 : Nat) ≤ 100000) ∧
    calculateRefund 100000 100000 ⟨24, 2, 50, 50⟩ 400 = 0 :=
  ⟨⟨by decide, by decide, by decide, by decide⟩,
    (refund_tiering ⟨24, 2, 50, 50⟩ 100000 400 (by decide) (by decide)).2.2.2
      100000 (by decide) (by decide)⟩

/-! ### Characterizing a successful `completeEvent` -/

theorem completeEvent_ok {s : EMState} {eventId caller now : Nat} {s' : EMState}
    (h : completeEvent s eventId caller now = Except.ok s') :
    ((s.events eventId).organizer = caller ∨
      now ≥ (s.events eventId).endTime + COMPLETION_DEADLINE) ∧
    (s.events eventId).status = EventStatus.Published ∧
    (s.events eventId).bondReleased = false ∧
    s' = { s with
      events := upd s.events eventId
        (distributeForfeitsByPolicy s.policy
          (completedEventPreDistribution s eventId)).1
      balances := upd s.balances (s.events eventId).organizer
        (s.balances (s.events eventId).organizer +
          (s.organizerBondAmount - completePenalty s eventId) +
          (distributeForfeitsByPolicy s.policy
            (completedEventPreDistribution s eventId)).2) } := by
  simp only [completeEvent] at h
  split at h
  · exact absurd h (by simp)
  · split at h
    · exact absurd h (by simp)
    · split at h
      · exact absurd h (by simp)
      · next h1 h2 h3 =>
        refine ⟨not_not.mp h1, not_not.mp h2, by simpa using h3, ?_⟩
        simpa using h.symm

/-- A trace reaching the claim C3 boundary scenario: bond `10000`,
deposit `0`, forfeit policy giving the whole pool to attendees; event 1
gets `confirmedCount = 3`, `attendedCount = 1`, `minAttendanceBps =
6000`, check-in closed; `sC3done` is the state after `completeEvent`. -/
def traceC3 : List Op :=
  [Op.setOrganizerBondAmount 5 10000,
   Op.setAttendeeDepositAmount 5 0,
   Op.updatePolicy 5 24 2 50 100,
   Op.createAccount 1, Op.createAccount 2, Op.createAccount 3,
   Op.createAccount 4,
   Op.createEvent 1 "" 1000000 2000000 6000 10 10,
   Op.publishEvent 1 1,
   Op.registerForEvent 1 2 20, Op.registerForEvent 1 3 20,
   Op.registerForEvent 1 4 20,
   Op.checkIn 1 1 2 1000001,
   Op.closeCheckIn 1 1 2000001]

def sC3 : EMState := run (initState 5) traceC3

def sC3done : EMState := step sC3 (Op.completeEvent 1 1 2000002)

/-! ### C3: bond penalty formula -/

/-- C3 counterexample.  In `sC3` event 1 is Published with
`confirmedCount = 3`, `minAttendanceBps = 6000`, `attendedCount = 1` and
bond `10000`.  The claim computes `required = floor(3 * 6000 / 10000) =
1 ≤ attendedCount`, hence full bond `10000` credited and zero penalty.
The code instead computes `attendanceRate = floor(1 * 10000 / 3) = 3333
< 6000` and credits only `10000 - 10000 * 2667 / 10000 = 7333`, putting
`2667` into the forfeit pool. -/
theorem bond_penalty_cex :
    (sC3.events 1).status = EventStatus.Published ∧
    (sC3.events 1).confirmedCount = 3 ∧
    (sC3.events 1).attendedCount = 1 ∧
    (sC3.events 1).minAttendanceBps = 6000 ∧
    sC3.organizerBondAmount = 10000 ∧
    sC3.balances 1 = 0 ∧
    (sC3done.events 1).status = EventStatus.Completed ∧
    sC3done.balances 1 = 7333 ∧ sC3done.balances 1 ≠ 10000 ∧
    (sC3done.events 1).forfeitPool = 2667 ∧
    (sC3done.events 1).forfeitPool ≠ 0 := by
  decide

/-- C3 (amended).  `completeEvent` uses the rate-based penalty formula,
not the required-count one: with `attendanceRate =
floor(attendedCount * 10000 / confirmedCount)` (`0` when no one is
confirmed), the organizer is credited the full bond iff `attendanceRate
≥ minAttendanceBps`; otherwise `penalty = bond * (minAttendanceBps -
attendanceRate) / 10000` is withheld from the bond credit and added to
the forfeit pool before the pool is distributed.  In the scenario
`confirmedCount = 3`, `minAttendanceBps = 6000`, `attendedCount = 1`
the rate is `3333 < 6000`, so a penalty of `bond * 2667 / 10000` IS
levied (witnessed concretely by `bond_penalty_cex`). -/
theorem bond_penalty_rate_formula (s : EMState) (eventId caller now : Nat)
    (s' : EMState) (h : completeEvent s eventId caller now = Except.ok s') :
    completePenalty s eventId =
      (if attendanceRate (sweepNoShows s.attendeeDepositAmount
            (s.events eventId)) ≥ (s.events eventId).minAttendanceBps then 0
        else s.organizerBondAmount *
          ((s.events eventId).minAttendanceBps -
            attendanceRate (sweepNoShows s.attendeeDepositAmount
              (s.events eventId))) / 10000) ∧
    (s'.events eventId).forfeitPool =
      (sweepNoShows s.attendeeDepositAmount (s.events eventId)).forfeitPool +
        completePenalty s eventId ∧
    s'.balances (s.events eventId).organizer =
      s.balances (s.events eventId).organizer +
        (s.organizerBondAmount - completePenalty s eventId) +
        (distributeForfeitsByPolicy s.policy
          (completedEventPreDistribution s eventId)).2 := by
  obtain ⟨-, -, -, hs'⟩ := completeEvent_ok h
  subst hs'
  refine ⟨?_, ?_, by simp⟩
  · dsimp only [completePenalty, bondPenalty, attendanceRate]
    rw [sweepNoShows_minAttendanceBps]
  · simp [completedEventPreDistribution, completePenalty]

/-- C3 witness: the amended penalty theorem applied to the concrete
completion `sC3 → sC3done`; the levied penalty is `2667` and the pool
receives exactly it. -/
theorem bond_penalty_rate_formula_witness :
    completeEvent sC3 1 1 2000002 = Except.ok sC3done ∧
    (sC3done.events 1).forfeitPool = 2667 :=
  ⟨rfl,
    ((bond_penalty_rate_formula sC3 1 1 2000002 sC3done rfl).2.1).trans
      (by decide)⟩

/-! ### C7: forfeiture split and truncation dust -/

/-- C7.  For every completed event with non-zero pool, the organizer is
credited `organizerShare = forfeitPool * (100 - attendeeSharePercent) /
100` (on top of the bond payout), and `rewardPerAttendee =
(forfeitPool - organizerShare) / attendedCount` when `attendedCount >
0`, else `0` — integer division throughout.  The Dust scenario:
`forfeitPool = 10`, `attendedCount = 3`, `attendeeSharePercent = 100`
yields `rewardPerAttendee = 3`, organizer share `0`, total attendee
payout `3 * 3 = 9`, and `10 - 0 - 9 = 1` unit that no payout ever
covers: it stays stranded in escrow. -/
theorem forfeit_split_and_dust :
    (∀ (s : EMState) (eventId caller now : Nat) (s' : EMState),
      completeEvent s eventId caller now = Except.ok s' →
      0 < (s'.events eventId).forfeitPool →
      (s'.balances (s.events eventId).organizer =
        s.balances (s.events eventId).organizer +
          (s.organizerBondAmount - completePenalty s eventId) +
          (s'.events eventId).forfeitPool *
            (100 - s.policy.attendeeSharePercent) / 100 ∧
      (s'.events eventId).rewardPerAttendee =
        (if 0 < (s'.events eventId).attendedCount then
          ((s'.events eventId).forfeitPool -
              (s'.events eventId).forfeitPool *
                (100 - s.policy.attendeeSharePercent) / 100) /
            (s'.events eventId).attendedCount
        else 0))) ∧
    ((distributeForfeitsByPolicy ⟨24, 2, 50, 100⟩
        { Event.zero with forfeitPool := 10, attendedCount := 3
          }).1.rewardPerAttendee = 3 ∧
      (distributeForfeitsByPolicy ⟨24, 2, 50, 100⟩
        { Event.zero with forfeitPool := 10, attendedCount := 3 }).2 = 0 ∧
      10 - (distributeForfeitsByPolicy ⟨24, 2, 50, 100⟩
        { Event.zero with forfeitPool := 10, attendedCount := 3 }).2 -
        3 * 3 = 1) := by
  constructor
  · intro s eventId caller now s' h hpool
    obtain ⟨-, -, -, hs'⟩ := completeEvent_ok h
    subst hs'
    simp only [upd_same, distributeForfeitsByPolicy_forfeitPool,
      distributeForfeitsByPolicy_attendedCount] at hpool ⊢
    refine ⟨?_, ?_⟩
    · rw [distributeForfeitsByPolicy_share _ _ hpool]
    · rw [distributeForfeitsByPolicy_reward _ _ hpool]
  · exact ⟨by decide, by decide, by decide⟩

/-- C7 witness: the split theorem applied to the concrete completion
`sC3 → sC3done` (pool `2667`, one attendee, whole pool to attendees). -/
theorem forfeit_split_and_dust_witness :
    completeEvent sC3 1 1 2000002 = Except.ok sC3done ∧
    0 < (sC3done.events 1).forfeitPool ∧
    (sC3done.events 1).rewardPerAttendee = 2667 :=
  ⟨rfl, by decide,
    ((forfeit_split_and_dust.1 sC3 1 1 2000002 sC3done rfl
      (by decide)).2).trans (by decide)⟩

/-! ### C8: the stored forfeit pool is not decremented -/

/-- C8.  `_distributeForfeitsByPolicy` never writes `forfeitPool`: the
resulting event keeps the exact pool it was given.  Consequently after
any successful `completeEvent` the `getEventForfeitPool` query returns
the full pre-distribution total (sweep + bond penalty included), even
though the organizer's share of that pool has already been credited to
the organizer's balance. -/
theorem forfeitPool_undiminished :
    (∀ (policy : PolicyConfig) (evt : Event),
      ((distributeForfeitsByPolicy policy evt).1).forfeitPool =
        evt.forfeitPool) ∧
    ∀ (s : EMState) (eventId caller now : Nat) (s' : EMState),
      completeEvent s eventId caller now = Except.ok s' →
      (getEventForfeitPool s' eventId =
        (completedEventPreDistribution s eventId).forfeitPool ∧
      (0 < (completedEventPreDistribution s eventId).forfeitPool →
        s'.balances (s.events eventId).organizer =
          s.balances (s.events eventId).organizer +
            (s.organizerBondAmount - completePenalty s eventId) +
            (completedEventPreDistribution s eventId).forfeitPool *
              (100 - s.policy.attendeeSharePercent) / 100)) := by
  refine ⟨fun policy evt => distributeForfeitsByPolicy_forfeitPool policy evt,
    ?_⟩
  intro s eventId caller now s' h
  obtain ⟨-, -, -, hs'⟩ := completeEvent_ok h
  subst hs'
  constructor
  · simp [getEventForfeitPool]
  · intro hpool
    simp only [upd_same]
    rw [distributeForfeitsByPolicy_share _ _ hpool]

/-- C8 witness: after completing event 1 of `sC3`, the stored pool and
the query still show the full `2667` although the organizer's share was
already credited. -/
theorem forfeitPool_undiminished_witness :
    completeEvent sC3 1 1 2000002 = Except.ok sC3done ∧
    getEventForfeitPool sC3done 1 = 2667 :=
  ⟨rfl,
    ((forfeitPool_undiminished.2 sC3 1 1 2000002 sC3done rfl).1).trans
      (by decide)⟩

/-! ### C5: cancellation postcondition -/

/-- A published event with the bond still held: `sC5` has event 1
Published, organizer 1, owner 5; `sC5adm` is the state after the owner
(administrative identity) cancels it, `sC5org` after the organizer
does. -/
def traceC5 : List Op :=
  [Op.createAccount 1, Op.createEvent 1 "" 100 200 0 5 10,
   Op.publishEvent 1 1]

def sC5 : EMState := run (initState 5) traceC5

def sC5adm : EMState := step sC5 (Op.cancelEvent 1 5)

def sC5org : EMState := step sC5 (Op.cancelEvent 1 1)

/-- C5 counterexample.  The owner (administrative identity) cancels the
Published event 1 of `sC5` whose bond (`10e18`) is unreleased: the code
sets the status to Canceled but leaves `bondReleased = false` (the
claim says it becomes `true`), credits no bond to the organizer
(balance stays `0`, the claim says the full bond), and resets
nothing. -/
theorem cancel_event_cex :
    cancelEvent sC5 1 5 = Except.ok sC5adm ∧
    sC5.owner = 5 ∧
    (sC5.events 1).status = EventStatus.Published ∧
    (sC5.events 1).bondReleased = false ∧
    (sC5adm.events 1).status = EventStatus.Canceled ∧
    (sC5adm.events 1).bondReleased = false ∧
    (sC5adm.events 1).bondReleased ≠ true ∧
    sC5adm.balances 1 = 0 ∧
    sC5adm.balances 1 ≠ 10 * 10 ^ 18 :=
  ⟨rfl, by decide, by decide, by decide, by decide, by decide, by decide,
    by decide, by decide⟩

/-- C5 (amended).  A cancellation by the organizer or the owner of a
Published event writes exactly one field: `status := Canceled`.
`bondReleased`, the forfeit pool, `rewardPerAttendee` and every balance
are unchanged — no bond refund, no pool reset, under either caller. -/
theorem cancel_event_postcondition (s : EMState) (eventId caller : Nat)
    (hauth : (s.events eventId).organizer = caller ∨ caller = s.owner)
    (hpub : (s.events eventId).status = EventStatus.Published) :
    cancelEvent s eventId caller =
      Except.ok { s with
        events :=
          upd s.events eventId
            { s.events eventId with status := EventStatus.Canceled } } ∧
    ∀ s', cancelEvent s eventId caller = Except.ok s' →
      ((s'.events eventId).status = EventStatus.Canceled ∧
        (s'.events eventId).bondReleased = (s.events eventId).bondReleased ∧
        (s'.events eventId).forfeitPool = (s.events eventId).forfeitPool ∧
        (s'.events eventId).rewardPerAttendee =
          (s.events eventId).rewardPerAttendee ∧
        s'.balances = s.balances) := by
  have hok : cancelEvent s eventId caller =
      Except.ok { s with
        events :=
          upd s.events eventId
            { s.events eventId with status := EventStatus.Canceled } } := by
    simp only [cancelEvent]
    rw [if_neg (not_not.mpr hauth), if_neg (not_not.mpr hpub)]
  refine ⟨hok, ?_⟩
  intro s' h
  rw [hok, Except.ok.injEq] at h
  subst h
  simp

/-- C5 witness: the amended postcondition applied to the organizer's
cancellation of event 1 in `sC5`. -/
theorem cancel_event_postcondition_witness :
    ((sC5.events 1).organizer = 1 ∨ (1 : Nat) = sC5.owner) ∧
    (sC5.events 1).status = EventStatus.Published ∧
    cancelEvent sC5 1 1 = Except.ok sC5org ∧
    (sC5org.events 1).status = EventStatus.Canceled :=
  ⟨Or.inl (by decide), by decide, rfl,
    ((cancel_event_postcondition sC5 1 1 (Or.inl (by decide))
      (by decide)).2 sC5org rfl).1⟩

/-! ### C6: initial event state -/

def sC6 : EMState := run (initState 5) [Op.createAccount 1]

def sC6created : EMState := step sC6 (Op.createEvent 1 "" 100 200 0 5 10)

/-- C6 counterexample.  A successful `createEvent` leaves the new event
in status `Created` (unpublished), not `Published`: `Published` is
reached only by the separate `publishEvent` call, so it is not the
initial state of the lifecycle. -/
theorem initial_status_cex :
    createEvent sC6 1 "" 100 200 0 5 10 = Except.ok sC6created ∧
    sC6created.nextEventId = 2 ∧
    (sC6created.events 1).organizer = 1 ∧
    (sC6created.events 1).status = EventStatus.Created ∧
    (sC6created.events 1).status ≠ EventStatus.Published :=
  ⟨rfl, by decide, by decide, by decide, by decide⟩

/-- C6 (amended).  Every successfully created event starts in status
`Created` with `published = false`; `publishEvent` is the only way into
`Published` and requires status `Created` (so `Created`, not
`Published`, is the initial state, and `Published` is the sole open
state from which the terminals `Canceled` / `Completed` are
reached). -/
theorem initial_status_created :
    (∀ (s : EMState) (c : Nat) (d : String) (st en m cap now : Nat)
        (s' : EMState),
      createEvent s c d st en m cap now = Except.ok s' →
      ((s'.events s.nextEventId).status = EventStatus.Created ∧
        (s'.events s.nextEventId).published = false ∧
        s'.nextEventId = s.nextEventId + 1)) ∧
    (∀ (s : EMState) (eventId c : Nat) (s' : EMState),
      publishEvent s eventId c = Except.ok s' →
      ((s.events eventId).status = EventStatus.Created ∧
        (s'.events eventId).status = EventStatus.Published ∧
        (s'.events eventId).published = true)) := by
  constructor
  · intro s c d st en m cap now s' h
    simp only [createEvent] at h
    split at h
    · exact absurd h (by simp)
    · split at h
      · exact absurd h (by simp)
      · split at h
        · exact absurd h (by simp)
        · split at h
          · exact absurd h (by simp)
          · split at h
            · exact absurd h (by simp)
            · rw [Except.ok.injEq] at h
              subst h
              simp
  · intro s eventId c s' h
    simp only [publishEvent] at h
    split at h
    · exact absurd h (by simp)
    · split at h
      · exact absurd h (by simp)
      · next h1 h2 =>
        rw [Except.ok.injEq] at h
        subst h
        exact ⟨not_not.mp h2, by simp, by simp⟩

/-- C6 witness: the amended theorem applied to the concrete creation
`sC6 → sC6created`. -/
theorem initial_status_created_witness :
    createEvent sC6 1 "" 100 200 0 5 10 = Except.ok sC6created ∧
    (sC6created.events 1).status = EventStatus.Created :=
  ⟨rfl, by
    have h := (initial_status_created.1 sC6 1 "" 100 200 0 5 10
      sC6created rfl).1
    simpa using h⟩

/-! ### C9: query / mutation agreement for claims -/

/-- A Completed event with a `Confirmed` no-show registrant (address 2)
who has not claimed: the query returns `0` for them, yet `claimPayout`
succeeds. -/
def traceC9 : List Op :=
  [Op.createAccount 1, Op.createAccount 2,
   Op.createEvent 1 "" 100 200 0 5 10,
   Op.publishEvent 1 1,
   Op.registerForEvent 1 2 50,
   Op.closeCheckIn 1 1 250,
   Op.completeEvent 1 1 300]

def sC9 : EMState := run (initState 5) traceC9

def sC9claimed : EMState := step sC9 (Op.claimPayout 1 2)

/-- C9 counterexample.  In `sC9` event 1 is Completed and address 2 is a
registered no-show (`Confirmed`, not claimed): `getClaimablePayout`
returns `0`, but `claimPayout` is NOT rejected — it succeeds (consuming
the one-time claim, crediting nothing), refuting "returns 0 exactly
when the claim would be rejected". -/
theorem claim_query_agreement_cex :
    getClaimablePayout sC9 1 2 = 0 ∧
    claimPayout sC9 1 2 = Except.ok sC9claimed ∧
    (sC9.events 1).status = EventStatus.Completed ∧
    ((sC9.events 1).registrations 2).status = RegStatus.Confirmed ∧
    ((sC9.events 1).registrations 2).present = true ∧
    (sC9.events 1).rewardsClaimed 2 = false ∧
    (sC9claimed.events 1).rewardsClaimed 2 = true ∧
    sC9claimed.balances 2 = sC9.balances 2 :=
  ⟨by decide, rfl, by decide, by decide, by decide, by decide, by decide,
    by decide⟩

/-- C9 (amended).  The query matches the mutation one way only: a
successful `claimPayout` credits exactly `getClaimablePayout` of the
pre-state, and whenever `claimPayout` is rejected the query returns
`0`; but the query returning `0` does not imply rejection (a Confirmed
no-show on a Completed event claims successfully for `0`, see the
counterexample). -/
theorem claim_query_agreement (s : EMState) (eventId p : Nat) :
    (∀ s', claimPayout s eventId p = Except.ok s' →
      s'.balances p = s.balances p + getClaimablePayout s eventId p) ∧
    (∀ msg, claimPayout s eventId p = Except.error msg →
      getClaimablePayout s eventId p = 0) := by
  by_cases h1 : ((s.events eventId).status = EventStatus.Completed ∨
      (s.events eventId).status = EventStatus.Canceled)
  · by_cases h2 : ((s.events eventId).registrations p).present = true
    · by_cases h3 : (s.events eventId).rewardsClaimed p = true
      · have hclaim : claimPayout s eventId p =
            Except.error "Payout already claimed" := by
          simp only [claimPayout]
          rw [if_neg (not_not.mpr h1), if_neg (not_not.mpr h2), if_pos h3]
        have hquery : getClaimablePayout s eventId p = 0 := by
          simp only [getClaimablePayout]
          rw [if_pos (Or.inr (Or.inr h3))]
        exact ⟨fun s' h => absurd (hclaim ▸ h) (by simp),
          fun msg h => hquery⟩
      · have hguard : ¬ ((¬ (s.events eventId).status = EventStatus.Completed ∧
            ¬ (s.events eventId).status = EventStatus.Canceled) ∨
            ¬ ((s.events eventId).registrations p).present = true ∨
            (s.events eventId).rewardsClaimed p = true) := by
          rintro (⟨ha, hb⟩ | hB | hC)
          · exact h1.elim ha hb
          · exact hB h2
          · exact h3 hC
        have hquery : getClaimablePayout s eventId p =
            (if ((s.events eventId).registrations p).status =
                RegStatus.Attended then
              s.attendeeDepositAmount + (s.events eventId).rewardPerAttendee
            else if (s.events eventId).status = EventStatus.Canceled then
              s.attendeeDepositAmount
            else 0) := by
          simp only [getClaimablePayout]
          rw [if_neg hguard]
        have hclaim : claimPayout s eventId p = Except.ok { s with
            events := upd s.events eventId
              { s.events eventId with
                rewardsClaimed :=
                  upd (s.events eventId).rewardsClaimed p true }
            balances := upd s.balances p (s.balances p +
              (if ((s.events eventId).registrations p).status =
                  RegStatus.Attended then
                s.attendeeDepositAmount + (s.events eventId).rewardPerAttendee
              else if (s.events eventId).status = EventStatus.Canceled then
                s.attendeeDepositAmount
              else 0)) } := by
          simp only [claimPayout]
          rw [if_neg (not_not.mpr h1), if_neg (not_not.mpr h2), if_neg h3]
        constructor
        · intro s' h
          rw [hclaim, Except.ok.injEq] at h
          subst h
          rw [hquery]
          simp
        · intro msg h
          rw [hclaim] at h
          exact absurd h (by simp)
    · have hclaim : claimPayout s eventId p =
          Except.error "Not registered for event" := by
        simp only [claimPayout]
        rw [if_neg (not_not.mpr h1), if_pos h2]
      have hquery : getClaimablePayout s eventId p = 0 := by
        simp only [getClaimablePayout]
        rw [if_pos (Or.inr (Or.inl h2))]
      exact ⟨fun s' h => absurd (hclaim ▸ h) (by simp), fun msg h => hquery⟩
  · have hclaim : claimPayout s eventId p =
        Except.error "Event not finalized" := by
      simp only [claimPayout]
      rw [if_pos h1]
    have hquery : getClaimablePayout s eventId p = 0 := by
      simp only [getClaimablePayout]
      rw [if_pos (Or.inl (not_or.mp h1))]
    exact ⟨fun s' h => absurd (hclaim ▸ h) (by simp), fun msg h => hquery⟩

/-- C9 witness: the agreement theorem applied to the concrete successful
claim `sC9 → sC9claimed`. -/
theorem claim_query_agreement_witness :
    claimPayout sC9 1 2 = Except.ok sC9claimed ∧
    sC9claimed.balances 2 = sC9.balances 2 + getClaimablePayout sC9 1 2 :=
  ⟨rfl, (claim_query_agreement sC9 1 2).1 sC9claimed rfl⟩

/-! ### C2: claim idempotence -/

@[simp] theorem completedEventPreDistribution_rewardsClaimed (s : EMState)
    (eventId : Nat) :
    (completedEventPreDistribution s eventId).rewardsClaimed =
      (s.events eventId).rewardsClaimed := by
  simp [completedEventPreDistribution]

@[simp] theorem completedEventPreDistribution_registrations (s : EMState)
    (eventId : Nat) :
    (completedEventPreDistribution s eventId).registrations =
      (s.events eventId).registrations := by
  simp [completedEventPreDistribution]

@[simp] theorem completedEventPreDistribution_status (s : EMState)
    (eventId : Nat) :
    (completedEventPreDistribution s eventId).status =
      EventStatus.Completed := by
  simp [completedEventPreDistribution]

@[simp] theorem completedEventPreDistribution_organizer (s : EMState)
    (eventId : Nat) :
    (completedEventPreDistribution s eventId).organizer =
      (s.events eventId).organizer := by
  simp [completedEventPreDistribution]

@[simp] theorem completedEventPreDistribution_published (s : EMState)
    (eventId : Nat) :
    (completedEventPreDistribution s eventId).published =
      (s.events eventId).published := by
  simp [completedEventPreDistribution]

theorem claimPayout_ok {s : EMState} {eventId p : Nat} {s' : EMState}
    (h : claimPayout s eventId p = Except.ok s') :
    ((s.events eventId).status = EventStatus.Completed ∨
      (s.events eventId).status = EventStatus.Canceled) ∧
    ((s.events eventId).registrations p).present = true ∧
    (s.events eventId).rewardsClaimed p = false ∧
    s' = { s with
      events := upd s.events eventId
        { s.events eventId with
          rewardsClaimed := upd (s.events eventId).rewardsClaimed p true }
      balances := upd s.balances p (s.balances p +
        (if ((s.events eventId).registrations p).status =
            RegStatus.Attended then
          s.attendeeDepositAmount + (s.events eventId).rewardPerAttendee
        else if (s.events eventId).status = EventStatus.Canceled then
          s.attendeeDepositAmount
        else 0)) } := by
  simp only [claimPayout] at h
  split at h
  · exact absurd h (by simp)
  · split at h
    · exact absurd h (by simp)
    · split at h
      · exact absurd h (by simp)
      · next h1 h2 h3 =>
        rw [Except.ok.injEq] at h
        exact ⟨not_not.mp h1, not_not.mp h2, by simpa using h3, h.symm⟩

/-- No successful operation ever resets a `rewardsClaimed` flag. -/
theorem apply_ok_rewardsClaimed {s : EMState} {op : Op} {s' : EMState}
    (hok : apply s op = Except.ok s') (eid p : Nat)
    (h : (s.events eid).rewardsClaimed p = true) :
    (s'.events eid).rewardsClaimed p = true := by
  cases op <;>
    simp only [apply, createAccount, updatePolicy,
      setAttendeeDepositAmount, setOrganizerBondAmount, withdraw,
      createEvent, publishEvent, cancelEvent, closeCheckIn, checkIn,
      completeEvent, registerForEvent, cancelRegistration,
      claimPayout] at hok <;>
    (repeat' split at hok) <;>
    first
      | exact Except.noConfusion hok
      | (injection hok with h2; subst h2;
         simp only [upd_apply];
         (repeat' split) <;> simp_all [upd_apply])

/-- No operation ever resets a `rewardsClaimed` flag: once an identity
has claimed on an event, every later state still records it. -/
theorem rewardsClaimed_mono_step (s : EMState) (op : Op) (eid p : Nat)
    (h : (s.events eid).rewardsClaimed p = true) :
    ((step s op).events eid).rewardsClaimed p = true := by
  unfold step
  split
  · next s' heq => exact apply_ok_rewardsClaimed heq eid p h
  · exact h

theorem rewardsClaimed_mono_run (s : EMState) (ops : List Op) (eid p : Nat)
    (h : (s.events eid).rewardsClaimed p = true) :
    ((run s ops).events eid).rewardsClaimed p = true := by
  induction ops generalizing s with
  | nil => exact h
  | cons op ops ih =>
    exact ih (step s op) (rewardsClaimed_mono_step s op eid p h)

theorem claimPayout_isError_of_claimed (s : EMState) (eid p : Nat)
    (h : (s.events eid).rewardsClaimed p = true) :
    ∃ msg, claimPayout s eid p = Except.error msg := by
  simp only [claimPayout, h, if_true]
  split
  · exact ⟨_, rfl⟩
  · split
    · exact ⟨_, rfl⟩
    · exact ⟨_, rfl⟩

/-- C2.  A successful `claimPayout` marks the identity claimed and
credits exactly the computed payout; afterwards — no matter which
further operations run — a second `claimPayout` by the same identity on
the same event is always rejected and, being rejected, leaves the
state (in particular the caller's balance) unchanged. -/
theorem claim_idempotent (s : EMState) (eid p : Nat) (s₁ : EMState)
    (h : claimPayout s eid p = Except.ok s₁) :
    ((s₁.events eid).rewardsClaimed p = true ∧
      s₁.balances p = s.balances p +
        (if ((s.events eid).registrations p).status = RegStatus.Attended then
          s.attendeeDepositAmount + (s.events eid).rewardPerAttendee
        else if (s.events eid).status = EventStatus.Canceled then
          s.attendeeDepositAmount
        else 0)) ∧
    ∀ ops, (∃ msg, claimPayout (run s₁ ops) eid p = Except.error msg) ∧
      step (run s₁ ops) (Op.claimPayout eid p) = run s₁ ops := by
  obtain ⟨-, -, -, hs₁⟩ := claimPayout_ok h
  have hflag : (s₁.events eid).rewardsClaimed p = true := by
    subst hs₁; simp
  have hbal : s₁.balances p = s.balances p +
      (if ((s.events eid).registrations p).status = RegStatus.Attended then
        s.attendeeDepositAmount + (s.events eid).rewardPerAttendee
      else if (s.events eid).status = EventStatus.Canceled then
        s.attendeeDepositAmount
      else 0) := by
    subst hs₁; simp
  refine ⟨⟨hflag, hbal⟩, ?_⟩
  intro ops
  have hflag' := rewardsClaimed_mono_run s₁ ops eid p hflag
  obtain ⟨msg, hmsg⟩ := claimPayout_isError_of_claimed _ eid p hflag'
  refine ⟨⟨msg, hmsg⟩, ?_⟩
  simp only [step, apply, hmsg]

/-- C2 witness: concrete first claim `sC9 → sC9claimed`, then the
immediate second claim fails and the state is untouched. -/
theorem claim_idempotent_witness :
    claimPayout sC9 1 2 = Except.ok sC9claimed ∧
    (∃ msg, claimPayout sC9claimed 1 2 = Except.error msg) ∧
    step sC9claimed (Op.claimPayout 1 2) = sC9claimed :=
  ⟨rfl, ((claim_idempotent sC9 1 2 sC9claimed rfl).2 []).1,
    ((claim_idempotent sC9 1 2 sC9claimed rfl).2 []).2⟩

/-! ### C10: reward is only ever written at completion -/

/-- Storage slots at ids the counter has not reached are untouched:
`organizer = 0`, unpublished, `Created`, zero reward. -/
def FreshInv (s : EMState) : Prop :=
  ∀ eid, s.nextEventId ≤ eid →
    (s.events eid).organizer = 0 ∧ (s.events eid).published = false ∧
    (s.events eid).status = EventStatus.Created ∧
    (s.events eid).rewardPerAttendee = 0

/-- `rewardPerAttendee` is zero on every event that is not Completed:
only `completeEvent`'s distribution ever writes it. -/
def RewardInv (s : EMState) : Prop :=
  ∀ eid, (s.events eid).status ≠ EventStatus.Completed →
    (s.events eid).rewardPerAttendee = 0

def Inv (s : EMState) : Prop := FreshInv s ∧ RewardInv s

theorem Inv_initState (owner : Nat) : Inv (initState owner) :=
  ⟨fun _ _ => ⟨rfl, rfl, rfl, rfl⟩, fun _ _ => rfl⟩

theorem Inv_of_untouched {s s' : EMState} (hInv : Inv s)
    (hn : s'.nextEventId = s.nextEventId) (he : s'.events = s.events) :
    Inv s' := by
  constructor
  · intro eid hge
    rw [hn] at hge
    rw [he]
    exact hInv.1 eid hge
  · intro eid
    rw [he]
    exact hInv.2 eid

theorem Inv_update_frame {s : EMState} (hInv : Inv s) (E : Nat)
    (newEvt : Event) {s' : EMState}
    (hn : s'.nextEventId = s.nextEventId)
    (he : s'.events = upd s.events E newEvt)
    (h1 : newEvt.organizer = (s.events E).organizer)
    (h2 : newEvt.published = (s.events E).published)
    (h3 : newEvt.status = (s.events E).status)
    (h4 : newEvt.rewardPerAttendee = (s.events E).rewardPerAttendee) :
    Inv s' := by
  constructor
  · intro eid hge
    rw [hn] at hge
    rw [he, upd_apply]
    split
    · next heq =>
      subst heq
      rw [h1, h2, h3, h4]
      exact hInv.1 eid hge
    · exact hInv.1 eid hge
  · intro eid
    rw [he, upd_apply]
    split
    · next heq =>
      subst heq
      rw [h3, h4]
      exact hInv.2 eid
    · exact hInv.2 eid

theorem Inv_update_stale {s : EMState} (hInv : Inv s) (E : Nat)
    (newEvt : Event) {s' : EMState}
    (hn : s'.nextEventId = s.nextEventId)
    (he : s'.events = upd s.events E newEvt)
    (hlt : E < s.nextEventId)
    (hsr : newEvt.status ≠ EventStatus.Completed →
      newEvt.rewardPerAttendee = 0) : Inv s' := by
  constructor
  · intro eid hge
    rw [hn] at hge
    rw [he, upd_apply]
    split
    · next heq =>
      subst heq
      exact absurd hge (by omega)
    · exact hInv.1 eid hge
  · intro eid
    rw [he, upd_apply]
    split
    · exact hsr
    · exact hInv.2 eid

theorem Inv_apply {s : EMState} {op : Op} {s' : EMState}
    (hok : apply s op = Except.ok s') (hsend : op.sender ≠ 0)
    (hInv : Inv s) : Inv s' := by
  cases op with
  | createAccount c =>
    simp only [apply, createAccount] at hok
    repeat' split at hok
    all_goals first
      | exact Except.noConfusion hok
      | (injection hok with heq; subst heq; exact Inv_of_untouched hInv rfl rfl)
  | updatePolicy c a b pq sq =>
    simp only [apply, updatePolicy] at hok
    repeat' split at hok
    all_goals first
      | exact Except.noConfusion hok
      | (injection hok with heq; subst heq; exact Inv_of_untouched hInv rfl rfl)
  | setAttendeeDepositAmount c a =>
    simp only [apply, setAttendeeDepositAmount] at hok
    repeat' split at hok
    all_goals first
      | exact Except.noConfusion hok
      | (injection hok with heq; subst heq; exact Inv_of_untouched hInv rfl rfl)
  | setOrganizerBondAmount c a =>
    simp only [apply, setOrganizerBondAmount] at hok
    repeat' split at hok
    all_goals first
      | exact Except.noConfusion hok
      | (injection hok with heq; subst heq; exact Inv_of_untouched hInv rfl rfl)
  | withdraw c =>
    simp only [apply, withdraw] at hok
    repeat' split at hok
    all_goals first
      | exact Except.noConfusion hok
      | (injection hok with heq; subst heq; exact Inv_of_untouched hInv rfl rfl)
  | createEvent c d st en m cap now =>
    simp only [apply, createEvent] at hok
    repeat' split at hok
    all_goals first
      | exact Except.noConfusion hok
      | (injection hok with heq; subst heq;
         constructor
         · intro eid hge
           dsimp only at hge ⊢
           have hne : eid ≠ s.nextEventId := by omega
           rw [upd_apply, if_neg hne]
           exact hInv.1 eid (by omega)
         · intro eid
           dsimp only
           rw [upd_apply]
           split
           · next heq2 =>
             intro _
             exact (hInv.1 s.nextEventId le_rfl).2.2.2
           · exact hInv.2 eid)
  | publishEvent e c =>
    simp only [apply, publishEvent] at hok
    split at hok
    · exact Except.noConfusion hok
    · split at hok
      · exact Except.noConfusion hok
      · next h1 h2 =>
        injection hok with heq
        subst heq
        have horg := not_not.mp h1
        have hst := not_not.mp h2
        have hlt : e < s.nextEventId := by
          by_contra hge
          push_neg at hge
          have h0 := (hInv.1 e hge).1
          rw [h0] at horg
          exact hsend horg.symm
        exact Inv_update_stale hInv e _ rfl rfl hlt
          (fun _ => hInv.2 e (by simp [hst]))
  | cancelEvent e c =>
    simp only [apply, cancelEvent] at hok
    split at hok
    · exact Except.noConfusion hok
    · split at hok
      · exact Except.noConfusion hok
      · next h1 h2 =>
        injection hok with heq
        subst heq
        have hst := not_not.mp h2
        have hlt : e < s.nextEventId := by
          by_contra hge
          push_neg at hge
          have h0 := (hInv.1 e hge).2.2.1
          rw [h0] at hst
          exact EventStatus.noConfusion hst
        exact Inv_update_stale hInv e _ rfl rfl hlt
          (fun _ => hInv.2 e (by simp [hst]))
  | closeCheckIn e c now =>
    simp only [apply, closeCheckIn] at hok
    repeat' split at hok
    all_goals first
      | exact Except.noConfusion hok
      | (injection hok with heq; subst heq;
         exact Inv_update_frame hInv e _ rfl rfl (by simp) (by simp)
           (by simp) (by simp))
  | checkIn e c q now =>
    simp only [apply, checkIn] at hok
    repeat' split at hok
    all_goals first
      | exact Except.noConfusion hok
      | (injection hok with heq; subst heq;
         exact Inv_update_frame hInv e _ rfl rfl rfl rfl rfl rfl)
  | completeEvent e c now =>
    simp only [apply, completeEvent] at hok
    split at hok
    · exact Except.noConfusion hok
    · split at hok
      · exact Except.noConfusion hok
      · split at hok
        · exact Except.noConfusion hok
        · next h1 h2 h3 =>
          injection hok with heq
          subst heq
          have hst := not_not.mp h2
          have hlt : e < s.nextEventId := by
            by_contra hge
            push_neg at hge
            have h0 := (hInv.1 e hge).2.2.1
            rw [h0] at hst
            exact EventStatus.noConfusion hst
          refine Inv_update_stale hInv e _ rfl rfl hlt (fun hne => ?_)
          exact absurd (by simp) hne
  | registerForEvent e c now =>
    simp only [apply, registerForEvent] at hok
    repeat' split at hok
    all_goals first
      | exact Except.noConfusion hok
      | (injection hok with heq; subst heq;
         exact Inv_update_frame hInv e _ rfl rfl rfl rfl rfl rfl)
  | cancelRegistration e c now =>
    simp only [apply, cancelRegistration] at hok
    repeat' split at hok
    all_goals first
      | exact Except.noConfusion hok
      | (injection hok with heq; subst heq;
         exact Inv_update_frame hInv e _ rfl rfl rfl rfl rfl rfl)
  | claimPayout e c =>
    simp only [apply, claimPayout] at hok
    repeat' split at hok
    all_goals first
      | exact Except.noConfusion hok
      | (injection hok with heq; subst heq;
         exact Inv_update_frame hInv e _ rfl rfl rfl rfl rfl rfl)

theorem Inv_step (s : EMState) (op : Op) (hsend : op.sender ≠ 0)
    (hInv : Inv s) : Inv (step s op) := by
  unfold step
  split
  · next s' heq => exact Inv_apply heq hsend hInv
  · exact hInv

theorem Inv_run (s : EMState) (ops : List Op) (hops : ValidSenders ops)
    (hInv : Inv s) : Inv (run s ops) := by
  induction ops generalizing s with
  | nil => exact hInv
  | cons op ops ih =>
    exact ih (step s op)
      (fun o ho => hops o (List.mem_cons_of_mem _ ho))
      (Inv_step s op (hops op (List.mem_cons_self _ _)) hInv)

/-- C10.  In every state reachable from deployment (by calls whose
senders are not `address(0)`), an event that is not Completed — in
particular every Canceled event — has `rewardPerAttendee = 0`, since
only `completeEvent`'s forfeit distribution writes that field; hence
every successful `claimPayout` against a Canceled event (including by
an `Attended` registrant, who is paid `deposit + rewardPerAttendee`)
credits exactly `attendeeDepositAmount`. -/
theorem canceled_event_claim_is_deposit (owner : Nat) (ops : List Op)
    (hops : ValidSenders ops) (eid : Nat) :
    (((run (initState owner) ops).events eid).status ≠
        EventStatus.Completed →
      ((run (initState owner) ops).events eid).rewardPerAttendee = 0) ∧
    ∀ p s', ((run (initState owner) ops).events eid).status =
        EventStatus.Canceled →
      claimPayout (run (initState owner) ops) eid p = Except.ok s' →
      s'.balances p = (run (initState owner) ops).balances p +
        (run (initState owner) ops).attendeeDepositAmount := by
  have hInv := Inv_run (initState owner) ops hops (Inv_initState owner)
  refine ⟨hInv.2 eid, ?_⟩
  intro p s' hst h
  obtain ⟨-, -, -, hs'⟩ := claimPayout_ok h
  subst hs'
  have hr : ((run (initState owner) ops).events eid).rewardPerAttendee = 0 :=
    hInv.2 eid (by simp [hst])
  simp only [upd_same, hr, hst]
  split <;> simp

/-- A trace producing a Canceled event with an `Attended` registrant
(address 2): register, check in after start, then the organizer cancels
the Published event. -/
def traceC10 : List Op :=
  [Op.createAccount 1, Op.createAccount 2,
   Op.createEvent 1 "" 100 200 0 5 10,
   Op.publishEvent 1 1,
   Op.registerForEvent 1 2 50,
   Op.checkIn 1 1 2 150,
   Op.cancelEvent 1 1]

def sC10 : EMState := run (initState 5) traceC10

def sC10claimed : EMState := step sC10 (Op.claimPayout 1 2)

/-- C10 witness: on the concrete trace, the `Attended` registrant of
the Canceled event 1 claims and is credited exactly the deposit
(`1e18`), with `rewardPerAttendee = 0`. -/
theorem canceled_event_claim_is_deposit_witness :
    ValidSenders traceC10 ∧
    (sC10.events 1).status = EventStatus.Canceled ∧
    ((sC10.events 1).registrations 2).status = RegStatus.Attended ∧
    claimPayout sC10 1 2 = Except.ok sC10claimed ∧
    sC10claimed.balances 2 = sC10.balances 2 + sC10.attendeeDepositAmount :=
  ⟨by decide, by decide, by decide, rfl,
    (canceled_event_claim_is_deposit 5 traceC10 (by decide) 1).2 2
      sC10claimed (by decide) rfl⟩

/-! ### C1: conservation of value -/

/-- Total balance held by the given addresses. -/
def sumBalances (s : EMState) (addrs : List Nat) : Nat :=
  (addrs.map s.balances).sum

/-- How many of the given identities hold a registration on the event
and have not claimed. -/
def unclaimedCount (evt : Event) (parts : List Nat) : Nat :=
  (parts.filter
    (fun q => (evt.registrations q).present && ! evt.rewardsClaimed q)).length

/-- The escrow the conservation equation attributes to one event:
`forfeitPool` + the bond if unreleased + one deposit per existing
unclaimed registration (over the given identity list). -/
def eventEscrow (s : EMState) (eid : Nat) (parts : List Nat) : Nat :=
  (s.events eid).forfeitPool +
    (if (s.events eid).bondReleased then 0 else s.organizerBondAmount) +
    s.attendeeDepositAmount * unclaimedCount (s.events eid) parts

/-- The conservation-breaking trace: participant 2 registers (deposit
`1e18`), cancels inside the full-refund window (balance credited
`1e18`, pool untouched), the organizer cancels the event, and 2 — whose
registration record still exists — claims and is credited the deposit
AGAIN.  Only addresses 1, 2, 5 (owner) are ever touched. -/
def traceC1 : List Op :=
  [Op.createAccount 1, Op.createAccount 2,
   Op.createEvent 1 "" 1000000 2000000 0 5 10,
   Op.publishEvent 1 1,
   Op.registerForEvent 1 2 20,
   Op.cancelRegistration 1 2 30,
   Op.cancelEvent 1 1,
   Op.claimPayout 1 2]

def sC1 : EMState := run (initState 5) traceC1

/-- C1 is violated by the code: after `traceC1`, external payers were
debited `11e18` (bond `10e18` + deposit `1e18`) and nothing was
withdrawn, yet balances (`2e18`, participant 2 was paid twice for one
deposit) plus event escrow (pool `0` + unreleased bond `10e18` + no
unclaimed deposits) total `12e18` — the double refund created `1e18`
out of nothing, and the sum rule of the claim fails. -/
theorem conservation_violated_by_double_refund :
    sC1.balances 1 = 0 ∧ sC1.balances 2 = 2 * 10 ^ 18 ∧
    sC1.balances 5 = 0 ∧
    (sC1.events 1).forfeitPool = 0 ∧
    (sC1.events 1).bondReleased = false ∧
    (sC1.events 1).rewardsClaimed 2 = true ∧
    sC1.totalDebited = 11 * 10 ^ 18 ∧
    sC1.totalWithdrawn = 0 ∧
    sumBalances sC1 [1, 2, 5] + eventEscrow sC1 1 [1, 2, 5] =
      12 * 10 ^ 18 ∧
    sumBalances sC1 [1, 2, 5] + eventEscrow sC1 1 [1, 2, 5] ≠
      sC1.totalDebited - sC1.totalWithdrawn := by
  decide

end EventManager
